import Mathlib

/-! TornadoVM native bindings: device-pointer arithmetic and the JNI export table.

Shallow embedding of

* `NativePTXStream.cpp` : the one implemented entry point, `copyDevicePointer`;
* `PTXDevice.h` and `levelZeroCommandList.h` : the declared entry points.

Machine integers are mathematical integers reduced explicitly to their width.
A `jlong` is a signed 64-bit value, a `jint` a signed 32-bit value.  Signed
overflow is taken as two's-complement wraparound, which is what the generated
multiply and add instructions compute.
-/

namespace TornadoVM

/-! ## Machine integers -/

/-- Values representable in a `jlong` (signed 64 bits). -/
def isJLong (x : Int) : Prop :=
  -9223372036854775808 ≤ x ∧ x ≤ 9223372036854775807

/-- Values representable in a `jint` (signed 32 bits). -/
def isJInt (x : Int) : Prop :=
  -2147483648 ≤ x ∧ x ≤ 2147483647

instance (x : Int) : Decidable (isJLong x) := by
  unfold isJLong; exact inferInstance

instance (x : Int) : Decidable (isJInt x) := by
  unfold isJInt; exact inferInstance

/-- Two's-complement reduction of an integer to the signed 64-bit range. -/
def wrapJLong (x : Int) : Int :=
  (x + 9223372036854775808) % 18446744073709551616 - 9223372036854775808

/-- Integral conversion `jint → jlong` applied to the right operand of
`offset * sizeOfType` by the usual arithmetic conversions. -/
def jlongOfJInt (w : Int) : Int := wrapJLong w

/-- The `jlong` product `a * b`. -/
def jlongMul (a b : Int) : Int := wrapJLong (a * b)

/-- The `jlong` sum `a + b`. -/
def jlongAdd (a b : Int) : Int := wrapJLong (a + b)

/-! ## `NativePTXStream.cpp` -/

/-- What a native call leaves behind: the text it wrote to `std::cout` and the
value it returned. -/
structure NativeCall where
  /-- Characters written to `std::cout`. -/
  stdout : String
  /-- The returned `jlong`. -/
  ret : Int
deriving DecidableEq, Repr

/-- The body of
`Java_uk_ac_manchester_tornado_drivers_ptx_nstream_NativePTXStream_copyDevicePointer`
(`NativePTXStream.cpp`, lines 36-40).  The `JNIEnv *` and `jclass` arguments are
not used by the body and are left out.

```
std::cout << "[JNI] NativePTXStream_copyDevicePointer: destDeviceBufferPtr = "
          << destDeviceBufferPtr << std::endl;
return srcDeviceBufferPtr + (offset * sizeOfType);
```
-/
def Java_uk_ac_manchester_tornado_drivers_ptx_nstream_NativePTXStream_copyDevicePointer
    (destDeviceBufferPtr srcDeviceBufferPtr offset sizeOfType : Int) : NativeCall :=
  ⟨"[JNI] NativePTXStream_copyDevicePointer: destDeviceBufferPtr = "
      ++ toString destDeviceBufferPtr ++ "\n",
   jlongAdd srcDeviceBufferPtr (jlongMul offset (jlongOfJInt sizeOfType))⟩

/-- Short name for the returned address of `copyDevicePointer`. -/
def copyDevicePointer (d s o w : Int) : Int :=
  (Java_uk_ac_manchester_tornado_drivers_ptx_nstream_NativePTXStream_copyDevicePointer
    d s o w).ret

/-! ## The export table: `PTXDevice.h`, `levelZeroCommandList.h`, `NativePTXStream.cpp` -/

/-- The native types that occur in the declared entry points. -/
inductive NativeType where
  | JNIEnvPtr
  | jclass
  | jobject
  | jstring
  | jint
  | jlong
  | jbyteArray
  | jintArray
  | jlongArray
deriving DecidableEq, Repr

/-- One declared entry point, as written in the source: the three lines of the
comment above it (`Class:`, `Method:`, `Signature:`), then the return type
between `JNIEXPORT` and `JNICALL`, the exported symbol, and the parenthesised
parameter list. -/
structure NativeDecl where
  /-- The `Class:` line of the comment. -/
  javaClass : String
  /-- The `Method:` line of the comment. -/
  method : String
  /-- The `Signature:` line of the comment, a JNI descriptor. -/
  signature : String
  /-- The declared return type. -/
  returnType : NativeType
  /-- The exported symbol. -/
  symbol : String
  /-- The declared parameter types, the two leading JNI arguments included. -/
  params : List NativeType
deriving DecidableEq, Repr

/-- Entry points declared in `PTXDevice.h` (lines 35-81), in source order. -/
def PTXDevice_h : List NativeDecl :=
  [⟨"uk_ac_manchester_tornado_drivers_ptx_PTXDevice",
    "cuDeviceGet",
    "(I)J",
    .jlong,
    "Java_uk_ac_manchester_tornado_drivers_ptx_PTXDevice_cuDeviceGet",
    [.JNIEnvPtr, .jclass, .jint]⟩,
   ⟨"uk_ac_manchester_tornado_drivers_ptx_PTXDevice",
    "cuDeviceGetName",
    "(J)Ljava/lang/String;",
    .jstring,
    "Java_uk_ac_manchester_tornado_drivers_ptx_PTXDevice_cuDeviceGetName",
    [.JNIEnvPtr, .jclass, .jlong]⟩,
   ⟨"uk_ac_manchester_tornado_drivers_ptx_PTXDevice",
    "cuDeviceGetAttribute",
    "(JI)I",
    .jint,
    "Java_uk_ac_manchester_tornado_drivers_ptx_PTXDevice_cuDeviceGetAttribute",
    [.JNIEnvPtr, .jclass, .jlong, .jint]⟩,
   ⟨"uk_ac_manchester_tornado_drivers_ptx_PTXDevice",
    "cuDeviceTotalMem",
    "(J)J",
    .jlong,
    "Java_uk_ac_manchester_tornado_drivers_ptx_PTXDevice_cuDeviceTotalMem",
    [.JNIEnvPtr, .jclass, .jlong]⟩,
   ⟨"uk_ac_manchester_tornado_drivers_ptx_PTXDevice",
    "cuDriverGetVersion",
    "()I",
    .jint,
    "Java_uk_ac_manchester_tornado_drivers_ptx_PTXDevice_cuDriverGetVersion",
    [.JNIEnvPtr, .jclass]⟩,
   ⟨"uk_ac_manchester_tornado_drivers_ptx_PTXDevice",
    "cuMemGetInfo",
    "(I)J",
    .jlong,
    "Java_uk_ac_manchester_tornado_drivers_ptx_PTXDevice_cuMemGetInfo",
    [.JNIEnvPtr, .jclass]⟩]

/-- Entry points declared in `levelZeroCommandList.h` (lines 10-97), in source order. -/
def levelZeroCommandList_h : List NativeDecl :=
  [⟨"uk_ac_manchester_tornado_drivers_spirv_levelzero_LevelZeroCommandList",
    "zeCommandListAppendLaunchKernel_native",
    "(JJLuk/ac/manchester/tornado/drivers/spirv/levelzero/ZeGroupDispatch;Ljava/lang/Object;ILjava/lang/Object;)I",
    .jint,
    "Java_uk_ac_manchester_tornado_drivers_spirv_levelzero_LevelZeroCommandList_zeCommandListAppendLaunchKernel_1native",
    [.JNIEnvPtr, .jobject, .jlong, .jlong, .jobject, .jobject, .jint, .jobject]⟩,
   ⟨"uk_ac_manchester_tornado_drivers_spirv_levelzero_LevelZeroCommandList",
    "zeCommandListClose_native",
    "(J)I",
    .jint,
    "Java_uk_ac_manchester_tornado_drivers_spirv_levelzero_LevelZeroCommandList_zeCommandListClose_1native",
    [.JNIEnvPtr, .jobject, .jlong]⟩,
   ⟨"uk_ac_manchester_tornado_drivers_spirv_levelzero_LevelZeroCommandList",
    "zeCommandListAppendMemoryCopy_native",
    "(JLuk/ac/manchester/tornado/drivers/spirv/levelzero/LevelZeroByteBuffer;[BJJJLuk/ac/manchester/tornado/drivers/spirv/levelzero/ZeEventHandle;ILuk/ac/manchester/tornado/drivers/spirv/levelzero/ZeEventHandle;)I",
    .jint,
    "Java_uk_ac_manchester_tornado_drivers_spirv_levelzero_LevelZeroCommandList_zeCommandListAppendMemoryCopy_1native",
    [.JNIEnvPtr, .jobject, .jlong, .jobject, .jbyteArray, .jlong, .jlong, .jlong, .jobject, .jint, .jobject]⟩,
   ⟨"uk_ac_manchester_tornado_drivers_spirv_levelzero_LevelZeroCommandList",
    "zeCommandListAppendMemoryCopy_nativeInt",
    "(JLuk/ac/manchester/tornado/drivers/spirv/levelzero/LevelZeroByteBuffer;[IJJJLuk/ac/manchester/tornado/drivers/spirv/levelzero/ZeEventHandle;ILuk/ac/manchester/tornado/drivers/spirv/levelzero/ZeEventHandle;)I",
    .jint,
    "Java_uk_ac_manchester_tornado_drivers_spirv_levelzero_LevelZeroCommandList_zeCommandListAppendMemoryCopy_1nativeInt",
    [.JNIEnvPtr, .jobject, .jlong, .jobject, .jintArray, .jlong, .jlong, .jlong, .jobject, .jint, .jobject]⟩,
   ⟨"uk_ac_manchester_tornado_drivers_spirv_levelzero_LevelZeroCommandList",
    "zeCommandListAppendMemoryCopy_nativeLong",
    "(JLuk/ac/manchester/tornado/drivers/spirv/levelzero/LevelZeroByteBuffer;[JJJJLuk/ac/manchester/tornado/drivers/spirv/levelzero/ZeEventHandle;ILuk/ac/manchester/tornado/drivers/spirv/levelzero/ZeEventHandle;)I",
    .jint,
    "Java_uk_ac_manchester_tornado_drivers_spirv_levelzero_LevelZeroCommandList_zeCommandListAppendMemoryCopy_1nativeLong",
    [.JNIEnvPtr, .jobject, .jlong, .jobject, .jlongArray, .jlong, .jlong, .jlong, .jobject, .jint, .jobject]⟩,
   ⟨"uk_ac_manchester_tornado_drivers_spirv_levelzero_LevelZeroCommandList",
    "zeCommandListAppendMemoryCopy_nativeBack",
    "(J[BLuk/ac/manchester/tornado/drivers/spirv/levelzero/LevelZeroByteBuffer;JJJLuk/ac/manchester/tornado/drivers/spirv/levelzero/ZeEventHandle;ILuk/ac/manchester/tornado/drivers/spirv/levelzero/ZeEventHandle;)I",
    .jint,
    "Java_uk_ac_manchester_tornado_drivers_spirv_levelzero_LevelZeroCommandList_zeCommandListAppendMemoryCopy_1nativeBack",
    [.JNIEnvPtr, .jobject, .jlong, .jbyteArray, .jobject, .jlong, .jlong, .jlong, .jobject, .jint, .jobject]⟩,
   ⟨"uk_ac_manchester_tornado_drivers_spirv_levelzero_LevelZeroCommandList",
    "zeCommandListAppendMemoryCopy_nativeBackInt",
    "(J[ILuk/ac/manchester/tornado/drivers/spirv/levelzero/LevelZeroByteBuffer;JJJLuk/ac/manchester/tornado/drivers/spirv/levelzero/ZeEventHandle;ILuk/ac/manchester/tornado/drivers/spirv/levelzero/ZeEventHandle;)I",
    .jint,
    "Java_uk_ac_manchester_tornado_drivers_spirv_levelzero_LevelZeroCommandList_zeCommandListAppendMemoryCopy_1nativeBackInt",
    [.JNIEnvPtr, .jobject, .jlong, .jintArray, .jobject, .jlong, .jlong, .jlong, .jobject, .jint, .jobject]⟩,
   ⟨"uk_ac_manchester_tornado_drivers_spirv_levelzero_LevelZeroCommandList",
    "zeCommandListAppendMemoryCopy_nativeBackLong",
    "(J[JLuk/ac/manchester/tornado/drivers/spirv/levelzero/LevelZeroByteBuffer;JJJLuk/ac/manchester/tornado/drivers/spirv/levelzero/ZeEventHandle;ILuk/ac/manchester/tornado/drivers/spirv/levelzero/ZeEventHandle;)I",
    .jint,
    "Java_uk_ac_manchester_tornado_drivers_spirv_levelzero_LevelZeroCommandList_zeCommandListAppendMemoryCopy_1nativeBackLong",
    [.JNIEnvPtr, .jobject, .jlong, .jlongArray, .jobject, .jlong, .jlong, .jlong, .jobject, .jint, .jobject]⟩,
   ⟨"uk_ac_manchester_tornado_drivers_spirv_levelzero_LevelZeroCommandList",
    "zeCommandListAppendBarrier_native",
    "(JLuk/ac/manchester/tornado/drivers/spirv/levelzero/ZeEventHandle;ILjava/lang/Object;)I",
    .jint,
    "Java_uk_ac_manchester_tornado_drivers_spirv_levelzero_LevelZeroCommandList_zeCommandListAppendBarrier_1native",
    [.JNIEnvPtr, .jobject, .jlong, .jobject, .jint, .jobject]⟩,
   ⟨"uk_ac_manchester_tornado_drivers_spirv_levelzero_LevelZeroCommandList",
    "zeCommandListAppendMemoryCopy_nativeBuffers",
    "(JLuk/ac/manchester/tornado/drivers/spirv/levelzero/LevelZeroByteBuffer;Luk/ac/manchester/tornado/drivers/spirv/levelzero/LevelZeroByteBuffer;ILuk/ac/manchester/tornado/drivers/spirv/levelzero/ZeEventHandle;ILuk/ac/manchester/tornado/drivers/spirv/levelzero/ZeEventHandle;)I",
    .jint,
    "Java_uk_ac_manchester_tornado_drivers_spirv_levelzero_LevelZeroCommandList_zeCommandListAppendMemoryCopy_1nativeBuffers",
    [.JNIEnvPtr, .jobject, .jlong, .jobject, .jobject, .jint, .jobject, .jint, .jobject]⟩,
   ⟨"uk_ac_manchester_tornado_drivers_spirv_levelzero_LevelZeroCommandList",
    "zeCommandListReset_native",
    "(J)I",
    .jint,
    "Java_uk_ac_manchester_tornado_drivers_spirv_levelzero_LevelZeroCommandList_zeCommandListReset_1native",
    [.JNIEnvPtr, .jobject, .jlong]⟩]

/-- The entry point defined in `NativePTXStream.cpp` (lines 31-37). -/
def NativePTXStream_cpp : List NativeDecl :=
  [⟨"uk_ac_manchester_tornado_drivers_ptx_nstream_NativePTXStream",
    "copyDevicePointer",
    "(JJJI)J",
    .jlong,
    "Java_uk_ac_manchester_tornado_drivers_ptx_nstream_NativePTXStream_copyDevicePointer",
    [.JNIEnvPtr, .jclass, .jlong, .jlong, .jlong, .jint]⟩]

/-- All eighteen entry points of the three source files. -/
def declaredEntryPoints : List NativeDecl :=
  PTXDevice_h ++ levelZeroCommandList_h ++ NativePTXStream_cpp

/-- The declaration of `cuMemGetInfo` (`PTXDevice.h`, lines 75-81). -/
def cuMemGetInfoDecl : NativeDecl :=
  ⟨"uk_ac_manchester_tornado_drivers_ptx_PTXDevice",
    "cuMemGetInfo",
    "(I)J",
    .jlong,
    "Java_uk_ac_manchester_tornado_drivers_ptx_PTXDevice_cuMemGetInfo",
    [.JNIEnvPtr, .jclass]⟩

/-! ### JNI descriptors and name mangling, as the specification words them -/

/-- The native type of a reference descriptor `L<name>;` : `jstring` for
`java/lang/String`, `jobject` otherwise. -/
def objectType (name : List Char) : NativeType :=
  if name = "java/lang/String".data then .jstring else .jobject

/-- Where the reader of field descriptors stands. -/
inductive FieldScan where
  /-- At the start of a field descriptor. -/
  | start
  /-- Right after a `[`. -/
  | array
  /-- Inside `L...;`, with the characters of the name read so far, last first. -/
  | className (acc : List Char)

/-- Reads a sequence of field descriptors into native types:
`I -> jint`, `J -> jlong`, `[B`/`[I`/`[J` `-> jbyteArray`/`jintArray`/`jlongArray`,
`L...; -> jobject` or `jstring`.  Anything else is not a descriptor of this table. -/
def scanFields : FieldScan → List Char → Option (List NativeType)
  | .start, [] => some []
  | .array, [] => none
  | .className _, [] => none
  | .start, c :: cs =>
    if c = 'I' then (scanFields .start cs).map (fun ts => NativeType.jint :: ts)
    else if c = 'J' then (scanFields .start cs).map (fun ts => NativeType.jlong :: ts)
    else if c = '[' then scanFields .array cs
    else if c = 'L' then scanFields (.className []) cs
    else none
  | .array, c :: cs =>
    if c = 'B' then (scanFields .start cs).map (fun ts => NativeType.jbyteArray :: ts)
    else if c = 'I' then (scanFields .start cs).map (fun ts => NativeType.jintArray :: ts)
    else if c = 'J' then (scanFields .start cs).map (fun ts => NativeType.jlongArray :: ts)
    else none
  | .className acc, c :: cs =>
    if c = ';' then (scanFields .start cs).map (fun ts => objectType acc.reverse :: ts)
    else scanFields (.className (c :: acc)) cs

/-- Reads a method descriptor `(<parameters>)<return>` into the native parameter
types and the native return type. -/
def parseDescriptor (sig : String) : Option (List NativeType × NativeType) :=
  match sig.data with
  | '(' :: rest =>
    match rest.dropWhile (fun c => c != ')') with
    | ')' :: r =>
      match scanFields .start (rest.takeWhile (fun c => c != ')')), scanFields .start r with
      | some ps, some [t] => some (ps, t)
      | _, _ => none
    | _ => none
  | _ => none

/-- A declaration agrees with its documented descriptor: after `JNIEnv *` and the
class or object, it takes exactly the descriptor's parameters, in order, and it
returns the descriptor's return type. -/
def matchesSignature (e : NativeDecl) : Bool :=
  match parseDescriptor e.signature, e.params with
  | some (ps, t), .JNIEnvPtr :: recv :: rest =>
    (recv == .jclass || recv == .jobject) && rest == ps && e.returnType == t
  | _, _ => false

/-- Escapes every underscore of a method name as `_1`. -/
def escapeUnderscore : List Char → List Char
  | [] => []
  | c :: cs =>
    if c = '_' then '_' :: '1' :: escapeUnderscore cs else c :: escapeUnderscore cs

/-- JNI mangling of a class (already underscore-separated) and a method:
`Java_`, the class, `_`, the escaped method. -/
def mangle (javaClass method : String) : String :=
  "Java_" ++ javaClass ++ "_" ++ String.mk (escapeUnderscore method.data)

/-! ## Lemmas on machine integers -/

theorem wrapJLong_of_isJLong {x : Int} (h : isJLong x) : wrapJLong x = x := by
  unfold isJLong at h
  unfold wrapJLong
  omega

theorem isJLong_wrapJLong (x : Int) : isJLong (wrapJLong x) := by
  unfold isJLong wrapJLong
  omega

theorem isJLong_of_isJInt {x : Int} (h : isJInt x) : isJLong x := by
  unfold isJInt at h
  unfold isJLong
  omega

theorem wrapJLong_modEq (x : Int) : Int.ModEq 18446744073709551616 (wrapJLong x) x := by
  unfold Int.ModEq wrapJLong
  omega

theorem eq_of_isJLong_of_modEq {x y : Int} (hx : isJLong x) (hy : isJLong y)
    (h : Int.ModEq 18446744073709551616 x y) : x = y := by
  unfold Int.ModEq at h
  unfold isJLong at hx hy
  omega

theorem copyDevicePointer_eq (d s o w : Int) :
    copyDevicePointer d s o w = wrapJLong (s + wrapJLong (o * wrapJLong w)) := rfl

theorem copyDevicePointer_modEq (d s o w : Int) :
    Int.ModEq 18446744073709551616 (copyDevicePointer d s o w) (s + o * w) := by
  rw [copyDevicePointer_eq]
  refine (wrapJLong_modEq _).trans (Int.ModEq.add_left s ?_)
  exact (wrapJLong_modEq _).trans (Int.ModEq.mul_left o (wrapJLong_modEq w))

theorem isJLong_copyDevicePointer (d s o w : Int) : isJLong (copyDevicePointer d s o w) := by
  rw [copyDevicePointer_eq]
  exact isJLong_wrapJLong _

theorem copyDevicePointer_of_fits (d s o w : Int) (h : isJLong (s + o * w)) :
    copyDevicePointer d s o w = s + o * w :=
  eq_of_isJLong_of_modEq (isJLong_copyDevicePointer d s o w) h (copyDevicePointer_modEq d s o w)

theorem escapeUnderscore_of_not_mem (m : List Char) (h : '_' ∉ m) : escapeUnderscore m = m := by
  induction m with
  | nil => rfl
  | cons c cs ih =>
    have hc : c ≠ '_' := fun e => h (by simp [e])
    have hcs : '_' ∉ cs := fun e => h (by simp [e])
    simp [escapeUnderscore, hc, ih hcs]

/-! ## The claims -/

/-- C1: for every destination `d` and all non-negative `s`, `o`, `w` such that the
exact integer `s + o * w` lies in the signed 64-bit range, `copyDevicePointer`
returns exactly `s + o * w`. -/
theorem copyDevicePointer_nonneg_exact (d s o w : Int) (_hs : 0 ≤ s) (_ho : 0 ≤ o)
    (_hw : 0 ≤ w) (hfit : isJLong (s + o * w)) :
    copyDevicePointer d s o w = s + o * w :=
  copyDevicePointer_of_fits d s o w hfit

theorem copyDevicePointer_nonneg_exact_witness :
    copyDevicePointer 4096 1024 3 8 = 1024 + 3 * 8 :=
  copyDevicePointer_nonneg_exact 4096 1024 3 8 (by decide) (by decide) (by decide) (by decide)

/-- C2: zero offset is the identity: for every destination `d`, every source
address `s` (a `jlong`) and every element width `w`, zero and negative widths
included, `copyDevicePointer d s 0 w` returns `s`. -/
theorem copyDevicePointer_zero_offset (d s w : Int) (hs : isJLong s) :
    copyDevicePointer d s 0 w = s := by
  rw [copyDevicePointer_eq, Int.zero_mul]
  rw [wrapJLong_of_isJLong (show isJLong 0 by decide), Int.add_zero]
  exact wrapJLong_of_isJLong hs

theorem copyDevicePointer_zero_offset_witness :
    copyDevicePointer 5 (-9223372036854775808) 0 (-3) = -9223372036854775808 :=
  copyDevicePointer_zero_offset 5 (-9223372036854775808) (-3) (by decide)

/-- C3: the returned address does not depend on the destination argument: for
any `d1`, `d2` and any `s`, `o`, `w` the two calls return the same value.  The
destination only appears in the text written to `std::cout`, which is the fixed
message followed by the destination in decimal and a newline. -/
theorem copyDevicePointer_dest_independent (d1 d2 s o w : Int) :
    (Java_uk_ac_manchester_tornado_drivers_ptx_nstream_NativePTXStream_copyDevicePointer
        d1 s o w).ret
      = (Java_uk_ac_manchester_tornado_drivers_ptx_nstream_NativePTXStream_copyDevicePointer
        d2 s o w).ret
    ∧ copyDevicePointer d1 s o w = copyDevicePointer d2 s o w
    ∧ (Java_uk_ac_manchester_tornado_drivers_ptx_nstream_NativePTXStream_copyDevicePointer
        d1 s o w).stdout
      = "[JNI] NativePTXStream_copyDevicePointer: destDeviceBufferPtr = "
          ++ toString d1 ++ "\n" :=
  ⟨rfl, rfl, rfl⟩

/-- C7: with overflow as wraparound, `copyDevicePointer d s o w` is the unique
signed 64-bit value congruent to `s + o * w` modulo `2^64`; when the exact value
is outside the signed 64-bit range the result differs from it by a non-zero
multiple of `2^64`; and `s = 2^63 - 1`, `o = 1`, `w = 1` yields `-2^63`. -/
theorem copyDevicePointer_wraparound (d s o w : Int) :
    isJLong (copyDevicePointer d s o w)
    ∧ Int.ModEq 18446744073709551616 (copyDevicePointer d s o w) (s + o * w)
    ∧ (∀ r : Int, isJLong r → Int.ModEq 18446744073709551616 r (s + o * w) →
        r = copyDevicePointer d s o w)
    ∧ (¬ isJLong (s + o * w) →
        ∃ k : Int, k ≠ 0 ∧ copyDevicePointer d s o w = s + o * w + k * 18446744073709551616)
    ∧ copyDevicePointer d 9223372036854775807 1 1 = -9223372036854775808 := by
  have hr := isJLong_copyDevicePointer d s o w
  have hm := copyDevicePointer_modEq d s o w
  refine ⟨hr, hm, fun r h1 h2 => eq_of_isJLong_of_modEq h1 hr (h2.trans hm.symm), ?_,
    by rw [copyDevicePointer_eq]; decide⟩
  intro hout
  obtain ⟨k, hk⟩ := hm.symm.dvd
  refine ⟨k, ?_, by linarith⟩
  rintro rfl
  have h0 : copyDevicePointer d s o w = s + o * w := by linarith
  exact hout (h0 ▸ hr)

theorem copyDevicePointer_wraparound_witness :
    ¬ isJLong (9223372036854775807 + 1 * 1)
    ∧ copyDevicePointer 0 9223372036854775807 1 1
        = 9223372036854775807 + 1 * 1 + (-1) * 18446744073709551616 :=
  ⟨by decide, ((copyDevicePointer_wraparound 0 9223372036854775807 1 1).2.2.2.2).trans
    (by decide)⟩

/-- C8: the 32-bit width is converted to 64 bits with its sign and the computation
is signed 64-bit: for a signed 32-bit `w` and `s`, `o` such that `o * w` and
`s + o * w` fit in the signed 64-bit range, the result is the exact integer
`s + o * w`.  So `o = 2^31`, `w = 4` adds `2^33`, and `w = -1` returns `s - o`. -/
theorem copyDevicePointer_signed_exact (d s o w : Int) (hw : isJInt w)
    (_hprod : isJLong (o * w)) (hsum : isJLong (s + o * w)) :
    jlongOfJInt w = w
    ∧ copyDevicePointer d s o w = s + o * w
    ∧ (w = -1 → copyDevicePointer d s o w = s - o) := by
  refine ⟨wrapJLong_of_isJLong (isJLong_of_isJInt hw),
    copyDevicePointer_of_fits d s o w hsum, ?_⟩
  rintro rfl
  rw [copyDevicePointer_of_fits d s o (-1) hsum]
  ring

theorem copyDevicePointer_signed_exact_witness :
    copyDevicePointer 0 5 2147483648 4 = 5 + 8589934592
    ∧ copyDevicePointer 0 5 3 (-1) = 5 - 3
    ∧ copyDevicePointer 0 5 3 (-1) ≠ 5 + 4294967295 * 3 :=
  ⟨(copyDevicePointer_signed_exact 0 5 2147483648 4 (by decide) (by decide) (by decide)).2.1,
   (copyDevicePointer_signed_exact 0 5 3 (-1) (by decide) (by decide) (by decide)).2.2 rfl,
   by decide⟩

/-- C9: offsets compose additively under 64-bit wraparound: for all `s`, `a`, `b`,
`w` and destinations, offsetting by `a` and then by `b` with the same width
equals offsetting once by the `jlong` sum of `a` and `b`; hence the order of two
successive offsets does not matter. -/
theorem copyDevicePointer_offsets_compose (d1 d2 d3 d4 s a b w : Int) :
    copyDevicePointer d2 (copyDevicePointer d1 s a w) b w
      = copyDevicePointer d3 s (jlongAdd a b) w
    ∧ copyDevicePointer d2 (copyDevicePointer d1 s a w) b w
      = copyDevicePointer d4 (copyDevicePointer d3 s b w) a w := by
  have key : ∀ x y e1 e2 : Int,
      Int.ModEq 18446744073709551616
        (copyDevicePointer e2 (copyDevicePointer e1 s x w) y w) (s + (x + y) * w) := by
    intro x y e1 e2
    refine (copyDevicePointer_modEq _ _ _ _).trans ?_
    have h1 := (copyDevicePointer_modEq e1 s x w).add_right (y * w)
    refine h1.trans ?_
    rw [show s + x * w + y * w = s + (x + y) * w by ring]
  have hsum : Int.ModEq 18446744073709551616
      (copyDevicePointer d3 s (jlongAdd a b) w) (s + (a + b) * w) := by
    refine (copyDevicePointer_modEq _ _ _ _).trans ?_
    exact Int.ModEq.add_left s ((wrapJLong_modEq (a + b)).mul_right w)
  constructor
  · exact eq_of_isJLong_of_modEq (isJLong_copyDevicePointer _ _ _ _)
      (isJLong_copyDevicePointer _ _ _ _) ((key a b d1 d2).trans hsum.symm)
  · refine eq_of_isJLong_of_modEq (isJLong_copyDevicePointer _ _ _ _)
      (isJLong_copyDevicePointer _ _ _ _) ((key a b d1 d2).trans ?_)
    rw [show a + b = b + a by ring]
    exact (key b a d3 d4).symm

theorem copyDevicePointer_offsets_compose_witness :
    copyDevicePointer 2 (copyDevicePointer 1 100 9223372036854775807 8) 5 8
      = copyDevicePointer 3 100 (jlongAdd 9223372036854775807 5) 8
    ∧ copyDevicePointer 2 (copyDevicePointer 1 100 9223372036854775807 8) 5 8
      = copyDevicePointer 4 (copyDevicePointer 3 100 5 8) 9223372036854775807 8 :=
  copyDevicePointer_offsets_compose 1 2 3 4 100 9223372036854775807 5 8

/-- C4: the declaration of `cuMemGetInfo` in `PTXDevice.h` does not take the
parameters of the descriptor documented above it: the comment says `(I)J`, one
`jint` parameter, and the declaration takes nothing after `JNIEnv *` and
`jclass`.  It is the only one of the eighteen entry points that differs from
its descriptor; the other five of `PTXDevice.h`, the eleven of
`levelZeroCommandList.h` and `copyDevicePointer` agree with theirs. -/
theorem cuMemGetInfo_signature_mismatch :
    cuMemGetInfoDecl ∈ PTXDevice_h
    ∧ parseDescriptor cuMemGetInfoDecl.signature = some ([.jint], .jlong)
    ∧ cuMemGetInfoDecl.params = [.JNIEnvPtr, .jclass]
    ∧ cuMemGetInfoDecl.returnType = .jlong
    ∧ matchesSignature cuMemGetInfoDecl = false
    ∧ declaredEntryPoints.filter (fun e => !matchesSignature e) = [cuMemGetInfoDecl]
    ∧ PTXDevice_h.length = 6 ∧ levelZeroCommandList_h.length = 11
    ∧ NativePTXStream_cpp.length = 1 := by
  decide

/-- C5: every exported symbol is the JNI mangling of the class and method named
in its comment, `Java_` then the class then `_` then the method with each
underscore written `_1`; a method without underscores is appended unchanged;
the mangling is injective on the declared entry points and no two of them share
a symbol. -/
theorem symbol_eq_mangle :
    (∀ e ∈ declaredEntryPoints, e.symbol = mangle e.javaClass e.method)
    ∧ (∀ e1 ∈ declaredEntryPoints, ∀ e2 ∈ declaredEntryPoints,
        mangle e1.javaClass e1.method = mangle e2.javaClass e2.method →
          e1.javaClass = e2.javaClass ∧ e1.method = e2.method)
    ∧ (declaredEntryPoints.map NativeDecl.symbol).Nodup
    ∧ (∀ c m : String, '_' ∉ m.data → mangle c m = "Java_" ++ c ++ "_" ++ m)
    ∧ mangle "uk_ac_manchester_tornado_drivers_spirv_levelzero_LevelZeroCommandList"
        "zeCommandListClose_native"
      = "Java_uk_ac_manchester_tornado_drivers_spirv_levelzero_LevelZeroCommandList_zeCommandListClose_1native" := by
  refine ⟨by decide, by decide, by decide, ?_, by decide⟩
  intro c m h
  unfold mangle
  rw [escapeUnderscore_of_not_mem m.data h]

theorem symbol_eq_mangle_witness :
    "Java_uk_ac_manchester_tornado_drivers_spirv_levelzero_LevelZeroCommandList_zeCommandListReset_1native"
      = mangle "uk_ac_manchester_tornado_drivers_spirv_levelzero_LevelZeroCommandList"
          "zeCommandListReset_native"
    ∧ mangle "uk_ac_manchester_tornado_drivers_ptx_nstream_NativePTXStream" "copyDevicePointer"
      = "Java_uk_ac_manchester_tornado_drivers_ptx_nstream_NativePTXStream_copyDevicePointer" :=
  ⟨symbol_eq_mangle.1
      ⟨"uk_ac_manchester_tornado_drivers_spirv_levelzero_LevelZeroCommandList",
        "zeCommandListReset_native",
        "(J)I",
        .jint,
        "Java_uk_ac_manchester_tornado_drivers_spirv_levelzero_LevelZeroCommandList_zeCommandListReset_1native",
        [.JNIEnvPtr, .jobject, .jlong]⟩ (by decide),
   (symbol_eq_mangle.2.2.2.1 _ "copyDevicePointer" (by decide)).trans (by decide)⟩

end TornadoVM
